import Mathlib

/-!
Shallow embedding of `aiosendspin_mpris/mpris.py` (class `SendspinMpris`):
the shared MPRIS state record, the public setters, the three client event
handlers, and the `start`/`stop` lifecycle.

Side effects (state writes, change-notification calls on the event adapter,
log lines, listener removals, server shutdown, thread operations) are made
explicit as a trace of `Ev` events returned alongside the updated object, so
that counts and ordering of effects can be stated and proved.
-/

/-- Playback state enum from `aiosendspin.models.types.PlaybackStateType`
(external collaborator; enum of playing/paused/stopped per the spec). -/
inductive PlaybackStateType where
  | playing
  | paused
  | stopped
deriving DecidableEq, Repr

/-- Media command enum from `aiosendspin.models.types.MediaCommand`
(external collaborator; the identity of individual commands is irrelevant
to this component, only the collection is stored). -/
inductive MediaCommand where
  | play
  | pause
  | next
  | previous
  | seek
  | volumeSet
deriving DecidableEq, Repr

/-- Modelled from the spec: the shared mutable `State` record defined in the
the adapter module of this repository (`MprisState`), a module not in scope here:
title/artist/album/duration/progress/playback-state/volume/mute/supported
commands, each optional field absent until set. -/
structure MprisState where
  title : Option String
  artist : Option String
  album : Option String
  duration_ms : Option Int
  progress_ms : Option Int
  playback_state : Option PlaybackStateType
  volume : Int
  muted : Bool
  supported_commands : List MediaCommand
deriving DecidableEq, Repr

/-- Modelled from the spec: `MprisState()` is created empty at controller
construction. -/
def initState : MprisState :=
  { title := none, artist := none, album := none, duration_ms := none
    progress_ms := none, playback_state := none, volume := 0, muted := false
    supported_commands := [] }

/-- Tri-state wrapper for fields of incoming updates: the `UndefinedField`
sentinel of `aiosendspin.models.types` distinguishes "field omitted in this
update" (`undefined`) from an explicitly transmitted value (`value v`,
where `v` itself may be an explicit null). -/
inductive UndefinedOr (α : Type) where
  | undefined
  | value (v : α)
deriving DecidableEq, Repr

/-- The `progress` sub-object of a metadata payload: track duration and
track progress, each possibly null. -/
structure TrackProgress where
  track_duration : Option Int
  track_progress : Option Int
deriving DecidableEq, Repr

/-- The `metadata` sub-object of a `ServerStatePayload`: each field is either
the `UndefinedField` sentinel or an explicit (possibly null) value. -/
structure SendspinMetadata where
  title : UndefinedOr (Option String)
  artist : UndefinedOr (Option String)
  album : UndefinedOr (Option String)
  progress : UndefinedOr (Option TrackProgress)
deriving DecidableEq, Repr

/-- The `controller` sub-object of a `ServerStatePayload`. -/
structure ControllerInfo where
  supported_commands : List MediaCommand
  volume : Int
  muted : Bool
deriving DecidableEq, Repr

/-- `ServerStatePayload` from the client SDK: carries optional `metadata`
and `controller` sub-objects. -/
structure ServerStatePayload where
  metadata : Option SendspinMetadata
  controller : Option ControllerInfo
deriving DecidableEq, Repr

/-- `GroupUpdateServerPayload` from the client SDK: carries an optional
playback state. -/
structure GroupUpdateServerPayload where
  playback_state : Option PlaybackStateType
deriving DecidableEq, Repr

/-- The four change-notification calls the adapter can make on the
`EventAdapter` notifier (`on_title`, `on_playpause`, `on_volume`,
`on_options`). -/
inductive NotifyKind where
  | onTitle
  | onPlaypause
  | onVolume
  | onOptions
deriving DecidableEq, Repr

/-- The event-notifier object (`mpris_server.events.EventAdapter`), modelled
by its observable behaviour: whether each notification call raises. -/
structure EventAdapter where
  on_title_raises : Bool
  on_playpause_raises : Bool
  on_volume_raises : Bool
  on_options_raises : Bool
deriving DecidableEq, Repr

/-- `EventAdapter.on_title`: the raw notification call, which either
succeeds or raises. -/
def EventAdapter.on_title (ea : EventAdapter) : Except Unit Unit :=
  if ea.on_title_raises then .error () else .ok ()

/-- `EventAdapter.on_playpause`: the raw notification call. -/
def EventAdapter.on_playpause (ea : EventAdapter) : Except Unit Unit :=
  if ea.on_playpause_raises then .error () else .ok ()

/-- `EventAdapter.on_volume`: the raw notification call. -/
def EventAdapter.on_volume (ea : EventAdapter) : Except Unit Unit :=
  if ea.on_volume_raises then .error () else .ok ()

/-- `EventAdapter.on_options`: the raw notification call. -/
def EventAdapter.on_options (ea : EventAdapter) : Except Unit Unit :=
  if ea.on_options_raises then .error () else .ok ()

/-- A listener remover callback as returned by the client
`add_*_listener` registrations, modelled by an identifier and whether
invoking it raises. -/
structure Remover where
  id : Nat
  raises : Bool
deriving DecidableEq, Repr

/-- The client SDK object (`SendspinClient`), modelled by the three remover
callbacks its `add_metadata_listener`, `add_group_update_listener` and
`add_controller_state_listener` registrations return. -/
structure SendspinClient where
  metadata_remover : Remover
  group_remover : Remover
  controller_remover : Remover
deriving DecidableEq, Repr

/-- The MPRIS protocol server (`mpris_server.server.Server`), modelled by
whether its `quit()` call raises. -/
structure Server where
  quit_raises : Bool
deriving DecidableEq, Repr

/-- Observable side effects of the adapter, in program order: writes to the
shared `State` record, change-notification calls (with whether the call
raised), log lines, listener registration/removal, server shutdown and
thread operations. -/
inductive Ev where
  | writeTitle (v : Option String)
  | writeArtist (v : Option String)
  | writeAlbum (v : Option String)
  | writeDuration (v : Option Int)
  | writeProgress (v : Option Int)
  | writePlayback (v : PlaybackStateType)
  | writeVolume (v : Int) (muted : Bool)
  | writeCommands (cs : List MediaCommand)
  | notify (k : NotifyKind) (raised : Bool)
  | logWarning
  | logDebug
  | logInfo
  | listenerAdd (n : Nat)
  | removerCall (id : Nat) (raised : Bool)
  | serverQuit (raised : Bool)
  | threadStart
  | threadJoin
deriving DecidableEq, Repr

/-- The `SendspinMpris` controller object: client reference, shared state,
optional adapter/server/event-notifier/thread, running flag and the list of
registered listener removers. -/
structure SendspinMpris where
  client : SendspinClient
  state : MprisState
  adapter : Option Unit
  server : Option Server
  event_adapter : Option EventAdapter
  thread : Option Unit
  running : Bool
  listener_removers : List Remover
deriving DecidableEq, Repr

/-- `SendspinMpris.__init__`: fresh controller with empty state, no
adapter/server/notifier/thread, not running, no registered removers. -/
def mkSendspinMpris (client : SendspinClient) : SendspinMpris :=
  { client := client, state := initState, adapter := none, server := none
    event_adapter := none, thread := none, running := false
    listener_removers := [] }

/-- `set_metadata`: writes title/artist/album/duration_ms to the state
(all parameters defaulting to `none`, as in the source), then emits a single
`on_title` change notification when the notifier is present; a missing
notifier logs a warning, a raising call logs at debug level and is
swallowed. -/
def set_metadata (c : SendspinMpris) (title : Option String := none)
    (artist : Option String := none) (album : Option String := none)
    (duration_ms : Option Int := none) : SendspinMpris × List Ev :=
  let st := { c.state with title := title, artist := artist, album := album, duration_ms := duration_ms }
  let c := { c with state := st }
  let wr := [Ev.writeTitle title, Ev.writeArtist artist, Ev.writeAlbum album,
             Ev.writeDuration duration_ms]
  let tail : List Ev :=
    match c.event_adapter with
    | none => [.logWarning]
    | some ea =>
      match ea.on_title with
      | .ok _ => [.notify .onTitle false]
      | .error _ => [.notify .onTitle true, .logDebug]
  (c, wr ++ tail)

/-- `set_progress`: writes progress_ms to the state and nothing else — no
change-notification call. -/
def set_progress (c : SendspinMpris) (progress_ms : Option Int) :
    SendspinMpris × List Ev :=
  ({ c with state := { c.state with progress_ms := progress_ms } },
   [Ev.writeProgress progress_ms])

/-- `set_playback_state`: writes the playback state, then emits a single
`on_playpause` change notification when the notifier is present. -/
def set_playback_state (c : SendspinMpris) (state : PlaybackStateType) :
    SendspinMpris × List Ev :=
  let c := { c with state := { c.state with playback_state := some state } }
  let wr := [Ev.writePlayback state]
  let tail : List Ev :=
    match c.event_adapter with
    | none => [.logWarning]
    | some ea =>
      match ea.on_playpause with
      | .ok _ => [.notify .onPlaypause false]
      | .error _ => [.notify .onPlaypause true, .logDebug]
  (c, wr ++ tail)

/-- `set_volume`: writes volume and muted (muted defaulting to `false`),
then emits a single `on_volume` change notification when the notifier is
present. -/
def set_volume (c : SendspinMpris) (volume : Int) (muted : Bool := false) :
    SendspinMpris × List Ev :=
  let c := { c with state := { c.state with volume := volume, muted := muted } }
  let wr := [Ev.writeVolume volume muted]
  let tail : List Ev :=
    match c.event_adapter with
    | none => [.logWarning]
    | some ea =>
      match ea.on_volume with
      | .ok _ => [.notify .onVolume false]
      | .error _ => [.notify .onVolume true, .logDebug]
  (c, wr ++ tail)

/-- `set_supported_commands`: writes the supported-command set, then emits a
single `on_options` change notification when the notifier is present. -/
def set_supported_commands (c : SendspinMpris) (commands : List MediaCommand) :
    SendspinMpris × List Ev :=
  let c := { c with state := { c.state with supported_commands := commands } }
  let wr := [Ev.writeCommands commands]
  let tail : List Ev :=
    match c.event_adapter with
    | none => [.logWarning]
    | some ea =>
      match ea.on_options with
      | .ok _ => [.notify .onOptions false]
      | .error _ => [.notify .onOptions true, .logDebug]
  (c, wr ++ tail)

/-- `_on_metadata_update`: returns unchanged if the payload carries no
metadata; otherwise computes title/artist/album (keeping the previous state
value when the incoming field is the `undefined` sentinel, adopting the
incoming value otherwise), derives duration/progress from the `progress`
sub-field only when it is present and non-null (otherwise keeping the
previous state values), calls `set_metadata`, and calls `set_progress`
afterwards exactly when the computed progress value is non-null. -/
def on_metadata_update (c : SendspinMpris) (payload : ServerStatePayload) :
    SendspinMpris × List Ev :=
  match payload.metadata with
  | none => (c, [])
  | some metadata =>
    let title := match metadata.title with
      | .undefined => c.state.title
      | .value v => v
    let artist := match metadata.artist with
      | .undefined => c.state.artist
      | .value v => v
    let album := match metadata.album with
      | .undefined => c.state.album
      | .value v => v
    let dp : Option Int × Option Int := match metadata.progress with
      | .value (some p) => (p.track_duration, p.track_progress)
      | _ => (c.state.duration_ms, c.state.progress_ms)
    let r1 := set_metadata c title artist album dp.1
    match dp.2 with
    | some pm =>
      let r2 := set_progress r1.1 (some pm)
      (r2.1, r1.2 ++ r2.2)
    | none => r1

/-- `_on_group_update`: calls `set_playback_state` with the incoming
playback state when it is non-null, otherwise does nothing. -/
def on_group_update (c : SendspinMpris) (payload : GroupUpdateServerPayload) :
    SendspinMpris × List Ev :=
  match payload.playback_state with
  | none => (c, [])
  | some ps => set_playback_state c ps

/-- `_on_controller_state`: returns unchanged if the payload carries no
controller sub-object; otherwise replaces the supported-command set and
calls the volume setter with (volume, muted). -/
def on_controller_state (c : SendspinMpris) (payload : ServerStatePayload) :
    SendspinMpris × List Ev :=
  match payload.controller with
  | none => (c, [])
  | some controller =>
    let r1 := set_supported_commands c controller.supported_commands
    let r2 := set_volume r1.1 controller.volume controller.muted
    (r2.1, r1.2 ++ r2.2)

/-- The only error `start` surfaces to the caller: no running asyncio event
loop in the calling context. -/
inductive StartError where
  | noRunningLoop
deriving DecidableEq, Repr

/-- `start`: no-op (debug log) when the protocol library is unavailable or
already running; raises `noRunningLoop` when the caller has no running
event loop; otherwise constructs the adapter, server and event notifier
(`ea`, `srv` stand for the freshly constructed collaborator objects),
spawns the server thread, sets the running flag, and registers the three
client listeners. -/
def start (c : SendspinMpris) (mpris_available : Bool) (loop_available : Bool)
    (ea : EventAdapter) (srv : Server) :
    Except StartError (SendspinMpris × List Ev) :=
  if ¬ mpris_available then .ok (c, [.logDebug])
  else if c.running then .ok (c, [.logDebug])
  else if ¬ loop_available then .error .noRunningLoop
  else
    let c := { c with adapter := some (), server := some srv, event_adapter := some ea, thread := some (), running := true }
    let removers := [c.client.metadata_remover, c.client.group_remover, c.client.controller_remover]
    let c := { c with listener_removers := c.listener_removers ++ removers }
    .ok (c, [.threadStart, .listenerAdd 0, .listenerAdd 1, .listenerAdd 2, .logDebug, .logInfo])

/-- `stop`: no-op when not running; otherwise clears the running flag and
the event notifier first, invokes every registered listener remover (a
raising remover is logged and does not abort the rest), always clears the
remover list, asks the server to quit (a raising quit is logged and
swallowed), and joins the thread with a bounded wait. -/
def stop (c : SendspinMpris) : SendspinMpris × List Ev :=
  if ¬ c.running then (c, [])
  else
    let tr1 := c.listener_removers.map fun r => Ev.removerCall r.id r.raises
    let tr2 := match c.server with
      | some srv => [Ev.serverQuit srv.quit_raises]
      | none => []
    let tr3 := match c.thread with
      | some _ => [Ev.logDebug, Ev.threadJoin]
      | none => []
    let c := { c with running := false, event_adapter := none, listener_removers := [], server := none, thread := none }
    (c, tr1 ++ tr2 ++ tr3 ++ [.logInfo])

/-- Number of change-notification calls in a trace. -/
def notifyCount (tr : List Ev) : Nat :=
  (tr.filter fun e => match e with | .notify _ _ => true | _ => false).length

/-- Number of `set_progress` state writes in a trace (each `set_progress`
call emits exactly one `writeProgress` event and nothing else, and no other
operation writes progress). -/
def progressCallCount (tr : List Ev) : Nat :=
  (tr.filter fun e => match e with | .writeProgress _ => true | _ => false).length

/-- Whether an event is a write to the shared `State` record. -/
def Ev.isWrite : Ev → Bool
  | .writeTitle _ | .writeArtist _ | .writeAlbum _ | .writeDuration _
  | .writeProgress _ | .writePlayback _ | .writeVolume _ _ | .writeCommands _ => true
  | _ => false

/-- Concrete client used for witnesses and scenario instances. -/
def clientW : SendspinClient := ⟨⟨0, false⟩, ⟨1, false⟩, ⟨2, true⟩⟩

/-- Concrete fresh controller used for witnesses and scenario instances. -/
def cW : SendspinMpris := mkSendspinMpris clientW

/-- C1: for every metadata event whose metadata payload is present, the
handler computes each of title, artist and album as the previous state value
when the incoming field is the undefined sentinel, and the incoming value
otherwise (including an explicit null); in particular, `set_metadata` with
title "A" followed by a metadata event with title undefined and artist "B"
yields a state with title "A" and artist "B". -/
theorem c1_metadata_fields_sentinel (c : SendspinMpris) (md : SendspinMetadata)
    (ctrl : Option ControllerInfo) :
    ((on_metadata_update c ⟨some md, ctrl⟩).1.state.title =
      match md.title with | .undefined => c.state.title | .value v => v) ∧
    ((on_metadata_update c ⟨some md, ctrl⟩).1.state.artist =
      match md.artist with | .undefined => c.state.artist | .value v => v) ∧
    ((on_metadata_update c ⟨some md, ctrl⟩).1.state.album =
      match md.album with | .undefined => c.state.album | .value v => v) ∧
    ((on_metadata_update (set_metadata cW (some "A")).1
        ⟨some ⟨.undefined, .value (some "B"), .undefined, .undefined⟩, none⟩).1.state.title
      = some "A" ∧
     (on_metadata_update (set_metadata cW (some "A")).1
        ⟨some ⟨.undefined, .value (some "B"), .undefined, .undefined⟩, none⟩).1.state.artist
      = some "B") := by
  refine ⟨?_, ?_, ?_, by constructor <;> rfl⟩ <;>
  · rcases md with ⟨t, a, al, pr⟩
    rcases pr with _ | ⟨_ | ⟨td, _ | pm⟩⟩ <;>
      simp [on_metadata_update, set_metadata, set_progress] <;>
      (try split) <;> rfl

/-- C10: all four parameters of `set_metadata` default to `none`, so an
argument omitted in a direct call writes `none` into the corresponding
state field rather than keeping the previous value: `set_metadata` with only
title "A" leaves artist, album and duration_ms as `none`. -/
theorem c10_set_metadata_defaults_clear (c : SendspinMpris) :
    (set_metadata c (some "A")).1.state.title = some "A" ∧
    (set_metadata c (some "A")).1.state.artist = none ∧
    (set_metadata c (some "A")).1.state.album = none ∧
    (set_metadata c (some "A")).1.state.duration_ms = none := by
  simp [set_metadata]

/-- C7: a group-update event with a null playback state invokes no setter
and leaves the whole controller (state included) unchanged with an empty
effect trace; a non-null playback state is passed to `set_playback_state`. -/
theorem c7_group_update_null_noop (c : SendspinMpris) :
    on_group_update c ⟨none⟩ = (c, []) ∧
    (∀ ps, on_group_update c ⟨some ps⟩ = set_playback_state c ps) := by
  constructor <;> simp [on_group_update]

/-- C6: when the protocol library is unavailable, `start` returns without
raising and leaves the controller entirely unchanged; on a fresh controller
the running flag stays false, no listeners are registered, and no
adapter, server or thread exists. -/
theorem c6_start_unavailable_noop (c : SendspinMpris) (client : SendspinClient)
    (la : Bool) (ea : EventAdapter) (srv : Server) :
    start c false la ea srv = .ok (c, [.logDebug]) ∧
    start (mkSendspinMpris client) false la ea srv =
      .ok (mkSendspinMpris client, [.logDebug]) ∧
    (mkSendspinMpris client).running = false ∧
    (mkSendspinMpris client).listener_removers = [] ∧
    (mkSendspinMpris client).adapter = none ∧
    (mkSendspinMpris client).server = none ∧
    (mkSendspinMpris client).thread = none := by
  refine ⟨?_, ?_, rfl, rfl, rfl, rfl, rfl⟩ <;> simp [start]

/-- Concrete controller with a notifier that never raises. -/
def cOk : SendspinMpris := { cW with event_adapter := some ⟨false, false, false, false⟩ }

/-- Concrete controller with a notifier whose every call raises. -/
def cErr : SendspinMpris := { cW with event_adapter := some ⟨true, true, true, true⟩ }

/-- C3: with a notifier present, `set_progress` makes no change-notification
call, while `set_metadata`, `set_playback_state`, `set_volume` and
`set_supported_commands` each make exactly one, and the trace shows every
state write preceding that single notification. -/
theorem c3_notification_counts (c : SendspinMpris) (ea : EventAdapter)
    (h : c.event_adapter = some ea) (v : Option Int) (t a al : Option String)
    (d : Option Int) (ps : PlaybackStateType) (vol : Int) (m : Bool)
    (cmds : List MediaCommand) :
    ((set_progress c v).2 = [.writeProgress v] ∧
     notifyCount (set_progress c v).2 = 0) ∧
    ((set_metadata c t a al d).2 =
      [.writeTitle t, .writeArtist a, .writeAlbum al, .writeDuration d,
       .notify .onTitle ea.on_title_raises] ++
      (if ea.on_title_raises then [.logDebug] else []) ∧
     notifyCount (set_metadata c t a al d).2 = 1) ∧
    ((set_playback_state c ps).2 =
      [.writePlayback ps, .notify .onPlaypause ea.on_playpause_raises] ++
      (if ea.on_playpause_raises then [.logDebug] else []) ∧
     notifyCount (set_playback_state c ps).2 = 1) ∧
    ((set_volume c vol m).2 =
      [.writeVolume vol m, .notify .onVolume ea.on_volume_raises] ++
      (if ea.on_volume_raises then [.logDebug] else []) ∧
     notifyCount (set_volume c vol m).2 = 1) ∧
    ((set_supported_commands c cmds).2 =
      [.writeCommands cmds, .notify .onOptions ea.on_options_raises] ++
      (if ea.on_options_raises then [.logDebug] else []) ∧
     notifyCount (set_supported_commands c cmds).2 = 1) := by
  rcases ea with ⟨b1, b2, b3, b4⟩
  cases b1 <;> cases b2 <;> cases b3 <;> cases b4 <;>
    simp [set_progress, set_metadata, set_playback_state, set_volume,
          set_supported_commands, h, notifyCount, EventAdapter.on_title,
          EventAdapter.on_playpause, EventAdapter.on_volume,
          EventAdapter.on_options]

/-- Witness for C3 at a concrete controller whose notifier is present and
never raises. -/
theorem c3_notification_counts_witness :
    (((set_progress cOk (some 5)).2 = [.writeProgress (some 5)] ∧
      notifyCount (set_progress cOk (some 5)).2 = 0) ∧
     ((set_metadata cOk (some "t") none none none).2 =
       [.writeTitle (some "t"), .writeArtist none, .writeAlbum none,
        .writeDuration none, .notify .onTitle false] ++ [] ∧
      notifyCount (set_metadata cOk (some "t") none none none).2 = 1) ∧
     ((set_playback_state cOk .playing).2 =
       [.writePlayback .playing, .notify .onPlaypause false] ++ [] ∧
      notifyCount (set_playback_state cOk .playing).2 = 1) ∧
     ((set_volume cOk 50 false).2 =
       [.writeVolume 50 false, .notify .onVolume false] ++ [] ∧
      notifyCount (set_volume cOk 50 false).2 = 1) ∧
     ((set_supported_commands cOk []).2 =
       [.writeCommands [], .notify .onOptions false] ++ [] ∧
      notifyCount (set_supported_commands cOk []).2 = 1)) :=
  c3_notification_counts cOk ⟨false, false, false, false⟩ rfl (some 5)
    (some "t") none none none .playing 50 false []

/-- C4: with a notifier present whose calls raise, every notifying setter
still completes normally, returning the fully updated state with the failed
notification logged and swallowed — the exact result value shows there is no
rollback and no propagation of the exception. -/
theorem c4_notification_error_swallowed (c : SendspinMpris) (ea : EventAdapter)
    (h : c.event_adapter = some ea) (h1 : ea.on_title_raises = true)
    (h2 : ea.on_playpause_raises = true) (h3 : ea.on_volume_raises = true)
    (h4 : ea.on_options_raises = true) (t a al : Option String)
    (d : Option Int) (ps : PlaybackStateType) (vol : Int) (m : Bool)
    (cmds : List MediaCommand) :
    set_metadata c t a al d =
      ({ c with state := { c.state with title := t, artist := a, album := al, duration_ms := d } },
       [.writeTitle t, .writeArtist a, .writeAlbum al, .writeDuration d,
        .notify .onTitle true, .logDebug]) ∧
    set_playback_state c ps =
      ({ c with state := { c.state with playback_state := some ps } },
       [.writePlayback ps, .notify .onPlaypause true, .logDebug]) ∧
    set_volume c vol m =
      ({ c with state := { c.state with volume := vol, muted := m } },
       [.writeVolume vol m, .notify .onVolume true, .logDebug]) ∧
    set_supported_commands c cmds =
      ({ c with state := { c.state with supported_commands := cmds } },
       [.writeCommands cmds, .notify .onOptions true, .logDebug]) := by
  simp [set_metadata, set_playback_state, set_volume, set_supported_commands,
        h, EventAdapter.on_title, EventAdapter.on_playpause,
        EventAdapter.on_volume, EventAdapter.on_options, h1, h2, h3, h4]

/-- Witness for C4 at a concrete controller whose notifier raises on every
call. -/
theorem c4_notification_error_swallowed_witness :
    (set_metadata cErr (some "t") none none none =
      ({ cErr with state := { cErr.state with title := some "t", artist := none, album := none, duration_ms := none } },
       [.writeTitle (some "t"), .writeArtist none, .writeAlbum none,
        .writeDuration none, .notify .onTitle true, .logDebug]) ∧
     set_playback_state cErr .paused =
      ({ cErr with state := { cErr.state with playback_state := some .paused } },
       [.writePlayback .paused, .notify .onPlaypause true, .logDebug]) ∧
     set_volume cErr 30 true =
      ({ cErr with state := { cErr.state with volume := 30, muted := true } },
       [.writeVolume 30 true, .notify .onVolume true, .logDebug]) ∧
     set_supported_commands cErr [.play] =
      ({ cErr with state := { cErr.state with supported_commands := [.play] } },
       [.writeCommands [.play], .notify .onOptions true, .logDebug])) :=
  c4_notification_error_swallowed cErr ⟨true, true, true, true⟩ rfl rfl rfl
    rfl rfl (some "t") none none none .paused 30 true [.play]

/-- Concrete running controller with two registered removers, the first of
which raises, a server whose quit raises, and a live thread. -/
def cRun : SendspinMpris :=
  { cW with running := true, event_adapter := some ⟨false, false, false, false⟩,
            adapter := some (), server := some ⟨true⟩, thread := some (),
            listener_removers := [⟨0, true⟩, ⟨1, false⟩] }

/-- C5: `stop` on a running controller invokes every registered listener
remover (a raising remover does not abort the rest, as the trace contains a
removal event for each registered remover in order, whatever its raise
flag), and the remover list is empty when `stop` returns; `stop` when not
running is a no-op. -/
theorem c5_stop_removes_all_listeners (c : SendspinMpris) :
    (c.running = false → stop c = (c, [])) ∧
    (c.running = true →
      (stop c).1.listener_removers = [] ∧
      ∃ rest, (stop c).2 =
        (c.listener_removers.map fun r => Ev.removerCall r.id r.raises) ++ rest) := by
  constructor
  · intro h; simp [stop, h]
  · intro h
    refine ⟨by simp [stop, h], ?_⟩
    refine ⟨(match c.server with
             | some srv => [Ev.serverQuit srv.quit_raises]
             | none => []) ++
            ((match c.thread with
              | some _ => [Ev.logDebug, Ev.threadJoin]
              | none => []) ++ [Ev.logInfo]), ?_⟩
    simp [stop, h, List.append_assoc]

/-- Witness for C5 at a concrete running controller whose first remover
raises. -/
theorem c5_stop_removes_all_listeners_witness :
    (stop cRun).1.listener_removers = [] ∧
    ∃ rest, (stop cRun).2 =
      [Ev.removerCall 0 true, Ev.removerCall 1 false] ++ rest :=
  (c5_stop_removes_all_listeners cRun).2 rfl

/-- C8: with the protocol library available and the controller not running,
`start` without a running event loop in the calling context returns the
`noRunningLoop` error; moreover any erroring `start` call must have had the
library available, the controller not running and no running loop, and the
error is `noRunningLoop` — the only error category surfaced to the caller. -/
theorem c8_start_requires_running_loop (c : SendspinMpris) (ea : EventAdapter)
    (srv : Server) (h : c.running = false) (c2 : SendspinMpris) (ma la : Bool)
    (e : StartError) (h2 : start c2 ma la ea srv = .error e) :
    start c true false ea srv = .error .noRunningLoop ∧
    (ma = true ∧ c2.running = false ∧ la = false ∧ e = .noRunningLoop) := by
  constructor
  · simp [start, h]
  · cases e
    by_cases hma : ma
    · by_cases hr : c2.running
      · simp [start, hma, hr] at h2
      · by_cases hla : la
        · simp [start, hma, hr, hla] at h2
        · exact ⟨hma, by simpa using hr, by simpa using hla, rfl⟩
    · simp [start, hma] at h2

/-- Witness for C8 at a concrete non-running controller. -/
theorem c8_start_requires_running_loop_witness :
    start cW true false ⟨false, false, false, false⟩ ⟨false⟩ =
      .error .noRunningLoop ∧
    (true = true ∧ cW.running = false ∧ false = false ∧
     StartError.noRunningLoop = StartError.noRunningLoop) :=
  c8_start_requires_running_loop cW ⟨false, false, false, false⟩ ⟨false⟩ rfl
    cW true false .noRunningLoop rfl

/-- Helper: the state writes performed by `set_metadata` are exactly the
four field writes, in order — its notification tail contains no write. -/
theorem set_metadata_writes (c : SendspinMpris) (t a al : Option String)
    (d : Option Int) :
    ((set_metadata c t a al d).2.filter Ev.isWrite) =
      [.writeTitle t, .writeArtist a, .writeAlbum al, .writeDuration d] := by
  rcases hEA : c.event_adapter with _ | ea
  · simp [set_metadata, hEA, Ev.isWrite]
  · rcases hT : ea.on_title with _ | _ <;>
      simp [set_metadata, hEA, hT, Ev.isWrite]

/-- Helper: `set_metadata` performs no progress write. -/
theorem progressCallCount_set_metadata (c : SendspinMpris)
    (t a al : Option String) (d : Option Int) :
    progressCallCount (set_metadata c t a al d).2 = 0 := by
  rcases hEA : c.event_adapter with _ | ea
  · simp [set_metadata, hEA, progressCallCount]
  · rcases hT : ea.on_title with _ | _ <;>
      simp [set_metadata, hEA, hT, progressCallCount]

/-- Helper: the controller returned by `set_metadata` is the input with the
four metadata fields overwritten. -/
theorem set_metadata_state (c : SendspinMpris) (t a al : Option String)
    (d : Option Int) :
    (set_metadata c t a al d).1 =
      { c with state := { c.state with title := t, artist := a, album := al, duration_ms := d } } := rfl

/-- Helper: `progressCallCount` is additive over trace concatenation. -/
theorem progressCallCount_append (l1 l2 : List Ev) :
    progressCallCount (l1 ++ l2) = progressCallCount l1 + progressCallCount l2 := by
  simp [progressCallCount, List.filter_append]

/-- Helper: a lone progress write counts as one `set_progress` call. -/
theorem progressCallCount_writeProgress (v : Option Int) :
    progressCallCount [Ev.writeProgress v] = 1 := rfl

/-- Helper: a progress write is a state write. -/
theorem isWrite_writeProgress (v : Option Int) :
    Ev.isWrite (Ev.writeProgress v) = true := rfl

/-- Concrete controller with a previously known progress value. -/
def cPrev : SendspinMpris :=
  { cW with state := { initState with progress_ms := some 5000 } }

/-- Concrete metadata event all of whose fields, the progress sub-field
included, are the undefined sentinel. -/
def pUndef : ServerStatePayload :=
  ⟨some ⟨.undefined, .undefined, .undefined, .undefined⟩, none⟩

/-- C2 counterexample: on a controller whose state already holds progress
5000, a metadata event whose progress sub-field is the undefined sentinel
updates neither duration nor progress (both retain their previous values),
yet the handler still calls `set_progress` once — so the progress setter is
not called "exactly when progress was updated by this event". -/
theorem c2_progress_call_without_update :
    pUndef.metadata = some ⟨.undefined, .undefined, .undefined, .undefined⟩ ∧
    (on_metadata_update cPrev pUndef).1.state.progress_ms = cPrev.state.progress_ms ∧
    (on_metadata_update cPrev pUndef).1.state.duration_ms = cPrev.state.duration_ms ∧
    progressCallCount (on_metadata_update cPrev pUndef).2 = 1 :=
  ⟨rfl, rfl, rfl, rfl⟩

/-- C2 amended: for every metadata event with a metadata payload, the
duration and progress values are computed from the progress sub-field when
it is present and non-null and as the previous state values otherwise;
`set_metadata` writes the computed duration, and `set_progress` is called
(after all state writes of `set_metadata`) exactly when the computed
progress value is non-null — including when it is merely the retained
previous value — so `State.progress_ms` keeps its previous value when the
computed progress is null. -/
theorem c2_progress_derivation (c : SendspinMpris) (md : SendspinMetadata)
    (ctrl : Option ControllerInfo) :
    ((on_metadata_update c ⟨some md, ctrl⟩).1.state.duration_ms =
      (match md.progress with
       | .value (some tp) => tp.track_duration
       | _ => c.state.duration_ms)) ∧
    ((on_metadata_update c ⟨some md, ctrl⟩).1.state.progress_ms =
      (match md.progress with
       | .value (some tp) =>
         if tp.track_progress.isSome then tp.track_progress else c.state.progress_ms
       | _ => c.state.progress_ms)) ∧
    (progressCallCount (on_metadata_update c ⟨some md, ctrl⟩).2 =
      (match md.progress with
       | .value (some tp) => if tp.track_progress.isSome then 1 else 0
       | _ => if c.state.progress_ms.isSome then 1 else 0)) ∧
    ((on_metadata_update c ⟨some md, ctrl⟩).2.filter Ev.isWrite =
      [Ev.writeTitle (match md.title with | .undefined => c.state.title | .value v => v),
       Ev.writeArtist (match md.artist with | .undefined => c.state.artist | .value v => v),
       Ev.writeAlbum (match md.album with | .undefined => c.state.album | .value v => v),
       Ev.writeDuration (match md.progress with | .value (some tp) => tp.track_duration | _ => c.state.duration_ms)] ++
      (match md.progress with
       | .value (some tp) =>
         if tp.track_progress.isSome then [Ev.writeProgress tp.track_progress] else []
       | _ => if c.state.progress_ms.isSome then [Ev.writeProgress c.state.progress_ms] else [])) := by
  rcases md with ⟨t, a, al, pr⟩
  rcases hpm : c.state.progress_ms with _ | pm0 <;>
    rcases pr with _ | ⟨_ | ⟨td, _ | pm⟩⟩ <;>
      refine ⟨?_, ?_, ?_, ?_⟩ <;>
        simp [on_metadata_update, set_progress, hpm, progressCallCount_append,
              progressCallCount_set_metadata, progressCallCount_writeProgress,
              set_metadata_state, set_metadata_writes, isWrite_writeProgress,
              List.filter_append]

/-- Number of progress writes in a trace that clear the field (write
`none`). -/
def clearingProgressWrites (tr : List Ev) : Nat :=
  (tr.filter fun e => match e with | .writeProgress none => true | _ => false).length

/-- Helper: `clearingProgressWrites` is additive over trace concatenation. -/
theorem clearingProgressWrites_append (l1 l2 : List Ev) :
    clearingProgressWrites (l1 ++ l2) =
      clearingProgressWrites l1 + clearingProgressWrites l2 := by
  simp [clearingProgressWrites, List.filter_append]

/-- Helper: a progress write of a present value clears nothing. -/
theorem clearingProgressWrites_writeProgress_some (pm : Int) :
    clearingProgressWrites [Ev.writeProgress (some pm)] = 0 := rfl

/-- Helper: `set_metadata` performs no clearing progress write. -/
theorem clearingProgressWrites_set_metadata (c : SendspinMpris)
    (t a al : Option String) (d : Option Int) :
    clearingProgressWrites (set_metadata c t a al d).2 = 0 := by
  rcases hEA : c.event_adapter with _ | ea
  · simp [set_metadata, hEA, clearingProgressWrites]
  · rcases hT : ea.on_title with _ | _ <;>
      simp [set_metadata, hEA, hT, clearingProgressWrites]

/-- Concrete controller with previously known duration and progress. -/
def cDur : SendspinMpris :=
  { cW with state := { initState with duration_ms := some 180000, progress_ms := some 7000 } }

/-- Concrete metadata event whose progress sub-field is present and non-null
but carries null track-duration and null track-progress. -/
def pNullTrack : ServerStatePayload :=
  ⟨some ⟨.undefined, .undefined, .undefined, .value (some ⟨none, none⟩)⟩, none⟩

/-- C9: the metadata handler never writes `none` into progress (every
`set_progress` call it makes carries a present value), and whenever its
result has no progress value the previous state had none either — so a
metadata event can never clear `State.progress_ms`; by contrast the same
kind of event can clear `State.duration_ms`: on a state holding duration
180000 and progress 7000, an event whose progress sub-field carries null
track values sets duration to `none` via `set_metadata` while progress
stays 7000. -/
theorem c9_progress_never_cleared (c : SendspinMpris) (p : ServerStatePayload)
    (c2 : SendspinMpris) (p2 : ServerStatePayload)
    (hres : (on_metadata_update c2 p2).1.state.progress_ms = none) :
    clearingProgressWrites (on_metadata_update c p).2 = 0 ∧
    c2.state.progress_ms = none ∧
    cDur.state.duration_ms = some 180000 ∧
    (on_metadata_update cDur pNullTrack).1.state.duration_ms = none ∧
    (on_metadata_update cDur pNullTrack).1.state.progress_ms = some 7000 := by
  refine ⟨?_, ?_, rfl, rfl, rfl⟩
  · rcases p with ⟨m, ctrl⟩
    rcases m with _ | ⟨t, a, al, pr⟩
    · simp [on_metadata_update, clearingProgressWrites]
    · rcases hpm : c.state.progress_ms with _ | pm0 <;>
        rcases pr with _ | ⟨_ | ⟨td, _ | pm⟩⟩ <;>
          simp [on_metadata_update, set_progress, hpm,
                clearingProgressWrites_append, clearingProgressWrites_set_metadata,
                clearingProgressWrites_writeProgress_some]
  · rcases p2 with ⟨m, ctrl⟩
    rcases m with _ | ⟨t, a, al, pr⟩
    · simpa [on_metadata_update] using hres
    · rcases hpm : c2.state.progress_ms with _ | pm0 <;>
        rcases pr with _ | ⟨_ | ⟨td, _ | pm⟩⟩ <;>
          simp [on_metadata_update, set_progress, set_metadata_state, hpm] at hres ⊢

/-- Witness for C9: a metadata event with an undefined progress sub-field on
a fresh controller leaves progress absent, and only because it was already
absent. -/
theorem c9_progress_never_cleared_witness :
    clearingProgressWrites (on_metadata_update cPrev pUndef).2 = 0 ∧
    cW.state.progress_ms = none ∧
    cDur.state.duration_ms = some 180000 ∧
    (on_metadata_update cDur pNullTrack).1.state.duration_ms = none ∧
    (on_metadata_update cDur pNullTrack).1.state.progress_ms = some 7000 :=
  c9_progress_never_cleared cPrev pUndef cW pUndef rfl
